import Mathlib

/-!
Verification of the chat application's server endpoint and client UI state
against its design specification.

The embedding follows the source:
  - `src/app/api/chat/route.ts` : the `POST` handler, its missing-credential
    check, its catch-block failure classification, and the `weather` and
    `calculator` tool execute functions;
  - the client chat page component : the `onSubmit` guard, the cooldown
    timer effect, and the session state it manipulates.

JavaScript strings become `String`, optional values (`error.message` may be
`undefined`) become `Option`, JS number arithmetic in the tools is modelled
over `ℚ` (every float the code manipulates is a rational; the inputs at
issue are integer-valued so no rounding is exercised), and the UI cooldown
counter — a JS number that could in principle go negative — is modelled as
`Int` so that its non-negativity is a real invariant, not a typing artifact.
-/

namespace ChatApp

/-- Substring containment, the model of JavaScript
`String.prototype.includes`: `pat` occurs contiguously inside `s`. -/
def strContains (s pat : String) : Bool :=
  decide (pat.toList <:+: s.toList)

/-- An upstream failure as seen by the catch block of `POST` in
`src/app/api/chat/route.ts`: `error.message` may be absent (`undefined`),
as may `error.status`. -/
structure UpstreamError where
  message : Option String
  status : Option Nat
deriving DecidableEq

/-- The test `error.message?.includes(pat)` from the route: `undefined`
short-circuits to false. -/
def msgIncludes (e : UpstreamError) (pat : String) : Bool :=
  match e.message with
  | some m => strContains m pat
  | none => false

/-- The JSON error body the route serialises: the `error` string, the
optional `type` tag, the optional `details` field. -/
structure ErrorBody where
  error : String
  etype : Option String
  details : Option String
deriving DecidableEq

/-- An HTTP response of the route on a failure path: status code plus JSON
error body. -/
structure HttpResponse where
  status : Nat
  body : ErrorBody
deriving DecidableEq

/-- The catch-block failure classification of `POST`
(`src/app/api/chat/route.ts`, lines 74–131), translated branch by branch:
quota/exceeded, then rate limit / status 429, then authentication /
status 401, then the generic fallback carrying `details: error.message`. -/
def classifyError (e : UpstreamError) : HttpResponse :=
  if msgIncludes e "quota" || msgIncludes e "exceeded" then
    ⟨429, ⟨"API quota exceeded. Please check your Google AI billing plan or try again later.",
      some "quota_exceeded", none⟩⟩
  else if msgIncludes e "rate limit" || e.status == some 429 then
    ⟨429, ⟨"Rate limit exceeded. Please wait a moment before sending another message.",
      some "rate_limit", none⟩⟩
  else if msgIncludes e "authentication" || e.status == some 401 then
    ⟨401, ⟨"Invalid API key. Please check your Google Gemini API key configuration.",
      some "auth_error", none⟩⟩
  else
    ⟨500, ⟨"An unexpected error occurred. Please try again later.",
      some "generic_error", e.message⟩⟩

/-- Modelled from the spec: the spec's ordered reference classification
(§4.1 "Failure classification (checked in order …)"), written from the
spec's words alone — a (status, type, details) triple per rule:
rule 1 quota/exceeded ↦ 429 quota_exceeded; rule 2 rate limit / status
429 ↦ 429 rate_limit; rule 3 authentication / status 401 ↦ 401
auth_error; rule 4 otherwise ↦ 500 generic_error with the raw error
detail. Exactly the first matching rule applies. -/
def specClassify (e : UpstreamError) : Nat × String × Option String :=
  if msgIncludes e "quota" || msgIncludes e "exceeded" then
    (429, "quota_exceeded", none)
  else if msgIncludes e "rate limit" || e.status == some 429 then
    (429, "rate_limit", none)
  else if msgIncludes e "authentication" || e.status == some 401 then
    (401, "auth_error", none)
  else
    (500, "generic_error", e.message)

/-- The behaviour of the upstream model call: either it streams back
successfully or it throws an `UpstreamError` into the catch block. -/
inductive Upstream where
  | ok
  | err (e : UpstreamError)

/-- Outcome of one `POST` call: the HTTP status, the JSON error body when
the call failed (`none` on the success/stream path), and whether the
remote provider was contacted at all. -/
structure RouteResult where
  status : Nat
  body : Option ErrorBody
  networkCalled : Bool
deriving DecidableEq

/-- The JS truthiness test `!process.env.GOOGLE_GENERATIVE_AI_API_KEY`:
an absent variable and the empty string are both falsy. -/
def keyConfigured : Option String → Bool
  | none => false
  | some k => !(k = "")

/-- The `POST` handler of `src/app/api/chat/route.ts` as a function of the
configured credential and the upstream outcome: the missing-credential
check returns 500 (body has an `error` message only, no `type` field)
before any network call; otherwise the provider is called and a thrown
error is routed through `classifyError`. Request-body parsing is modelled
as successful (a malformed body would take the same catch-all
classification path). -/
def POSTroute (apiKey : Option String) (upstream : Upstream) : RouteResult :=
  if keyConfigured apiKey = false then
    ⟨500, some ⟨"API key not configured. Please add your Google Gemini API key to environment variables.",
      none, none⟩, false⟩
  else
    match upstream with
    | Upstream.ok => ⟨200, none, true⟩
    | Upstream.err e => ⟨(classifyError e).status, some (classifyError e).body, true⟩

/-!
The calculator tool (`src/app/api/chat/route.ts`, lines 45–59) evaluates its
`expression` string with JavaScript dynamic evaluation
(`Function('"use strict"; return (expr)')()`) inside a try/catch. The
dynamic evaluation is an engine builtin, modelled here by an arithmetic
evaluator over ℚ covering the fragment the tool is specified for
(§4.1: "evaluates an arithmetic expression string"): integer and decimal
literals, `+ - * /`, unary sign, parentheses, whitespace. Inputs outside
this fragment — like any input the JS engine rejects — evaluate to `none`
and take the catch branch.
-/

/-- Arithmetic tokens of the calculator's expression language. -/
inductive Tok where
  | num (v : ℚ)
  | plus
  | minus
  | star
  | slash
  | lparen
  | rparen
deriving DecidableEq

/-- Consume a run of decimal digits, extending the accumulator. -/
def digitsAux (acc : Nat) : List Char → Nat × List Char
  | [] => (acc, [])
  | c :: cs =>
    if c.isDigit then digitsAux (acc * 10 + (c.toNat - 48)) cs
    else (acc, c :: cs)

/-- Consume a run of decimal digits after the point, also counting them. -/
def fracAux (acc k : Nat) : List Char → Nat × Nat × List Char
  | [] => (acc, k, [])
  | c :: cs =>
    if c.isDigit then fracAux (acc * 10 + (c.toNat - 48)) (k + 1) cs
    else (acc, k, c :: cs)

/-- Tokenizer for the arithmetic fragment; any character outside it makes
the whole expression invalid (the JS engine would throw). Fuel bounds the
recursion; each step consumes at least one character. -/
def tokenizeF : Nat → List Char → Option (List Tok)
  | 0, _ => none
  | _ + 1, [] => some []
  | fuel + 1, c :: cs =>
    if c = ' ' ∨ c = '\t' ∨ c = '\n' ∨ c = '\r' then tokenizeF fuel cs
    else if c = '+' then (tokenizeF fuel cs).map (Tok.plus :: ·)
    else if c = '-' then (tokenizeF fuel cs).map (Tok.minus :: ·)
    else if c = '*' then (tokenizeF fuel cs).map (Tok.star :: ·)
    else if c = '/' then (tokenizeF fuel cs).map (Tok.slash :: ·)
    else if c = '(' then (tokenizeF fuel cs).map (Tok.lparen :: ·)
    else if c = ')' then (tokenizeF fuel cs).map (Tok.rparen :: ·)
    else if c.isDigit then
      match digitsAux 0 (c :: cs) with
      | (n, '.' :: rest) =>
        match fracAux 0 0 rest with
        | (f, k, rest2) =>
          (tokenizeF fuel rest2).map
            (Tok.num ((n : ℚ) + (f : ℚ) / ((10 : ℚ) ^ k)) :: ·)
      | (n, rest) => (tokenizeF fuel rest).map (Tok.num (n : ℚ) :: ·)
    else none

/-- Tokenize an expression string. -/
def tokenize (s : String) : Option (List Tok) :=
  tokenizeF (s.toList.length + 1) s.toList

mutual

/-- Atom: literal, signed atom, or parenthesised expression. -/
def parseAtom : Nat → List Tok → Option (ℚ × List Tok)
  | 0, _ => none
  | fuel + 1, ts =>
    match ts with
    | Tok.num v :: rest => some (v, rest)
    | Tok.minus :: rest =>
      match parseAtom fuel rest with
      | some (v, rest2) => some (-v, rest2)
      | none => none
    | Tok.plus :: rest => parseAtom fuel rest
    | Tok.lparen :: rest =>
      match parseExpr fuel rest with
      | some (v, Tok.rparen :: rest2) => some (v, rest2)
      | _ => none
    | _ => none

/-- Term: atom followed by a run of `*`/`/` operations. -/
def parseTerm : Nat → List Tok → Option (ℚ × List Tok)
  | 0, _ => none
  | fuel + 1, ts =>
    match parseAtom fuel ts with
    | some (v, rest) => parseTermRest fuel v rest
    | none => none

/-- Left-associated continuation of a term. -/
def parseTermRest : Nat → ℚ → List Tok → Option (ℚ × List Tok)
  | 0, _, _ => none
  | fuel + 1, v, ts =>
    match ts with
    | Tok.star :: rest =>
      match parseAtom fuel rest with
      | some (w, rest2) => parseTermRest fuel (v * w) rest2
      | none => none
    | Tok.slash :: rest =>
      match parseAtom fuel rest with
      | some (w, rest2) => parseTermRest fuel (v / w) rest2
      | none => none
    | _ => some (v, ts)

/-- Expression: term followed by a run of `+`/`-` operations. -/
def parseExpr : Nat → List Tok → Option (ℚ × List Tok)
  | 0, _ => none
  | fuel + 1, ts =>
    match parseTerm fuel ts with
    | some (v, rest) => parseExprRest fuel v rest
    | none => none

/-- Left-associated continuation of an expression. -/
def parseExprRest : Nat → ℚ → List Tok → Option (ℚ × List Tok)
  | 0, _, _ => none
  | fuel + 1, v, ts =>
    match ts with
    | Tok.plus :: rest =>
      match parseTerm fuel rest with
      | some (w, rest2) => parseExprRest fuel (v + w) rest2
      | none => none
    | Tok.minus :: rest =>
      match parseTerm fuel rest with
      | some (w, rest2) => parseExprRest fuel (v - w) rest2
      | none => none
    | _ => some (v, ts)

end

/-- Full evaluation of an expression string: tokenize, parse, and require
the whole token list to be consumed; `none` models a thrown evaluation
error. -/
def calcEval (s : String) : Option ℚ :=
  match tokenize s with
  | none => none
  | some ts =>
    match parseExpr (3 * ts.length + 3) ts with
    | some (v, []) => some v
    | _ => none

/-- Result shape of the calculator tool: `{result}` on success, `{error}`
on failure. -/
inductive CalcOutcome where
  | result (v : ℚ)
  | error (msg : String)
deriving DecidableEq

/-- The calculator tool's `execute` (`src/app/api/chat/route.ts`,
lines 50–58): evaluate inside try, and on any failure return the fixed
structured error instead of rethrowing. -/
def calculator (expression : String) : CalcOutcome :=
  match calcEval expression with
  | some v => CalcOutcome.result v
  | none => CalcOutcome.error "Invalid mathematical expression"

/-!
The weather tool (`src/app/api/chat/route.ts`, lines 31–43) draws two
values from `Math.random()` (a real in [0, 1); every float the engine can
return is rational, so the source is modelled as a ℚ parameter with the
interval as hypothesis).
-/

/-- JavaScript `Math.round` for the non-negative range at issue:
round-half-up, `⌊x + 1/2⌋`. -/
def jsRound (q : ℚ) : Int :=
  ⌊q + 1 / 2⌋

/-- Temperature computation `Math.round(Math.random() * (90 - 32) + 32)`
with `r` the random draw. -/
def weatherTemp (r : ℚ) : Int :=
  jsRound (r * (90 - 32) + 32)

/-- Description index `Math.floor(Math.random() * 4)` with `r` the random
draw. -/
def weatherDescIdx (r : ℚ) : Int :=
  ⌊r * 4⌋

/-- The literal description array of the weather tool. -/
def weatherDescs : List String :=
  ["sunny", "cloudy", "rainy", "snowy"]

/-- Result shape of the weather tool; `description` is `none` when the
array index would be out of bounds (JS `undefined`). -/
structure WeatherResult where
  location : String
  temperature : Int
  description : Option String
deriving DecidableEq

/-- The weather tool's `execute` on random draws `r1` (temperature) and
`r2` (description). -/
def weather (r1 r2 : ℚ) (location : String) : WeatherResult :=
  ⟨location, weatherTemp r1,
    if weatherDescIdx r2 < 0 then none
    else weatherDescs.get? (weatherDescIdx r2).toNat⟩

/-!
The client chat page: session state (draft input, cooldown counter, typing
flag) and its two transitions, the `onSubmit` guard and the one-second
cooldown timer effect. `sentCount` counts the requests handed to the
transport (`handleSubmit`), which also clears the draft. The cooldown
lives in a JS number; it is modelled as `Int` so non-negativity is a
provable invariant rather than a consequence of the Lean type.
-/

/-- Whitespace test for the draft guard. -/
def isSpaceChar (c : Char) : Bool :=
  c = ' ' ∨ c = '\t' ∨ c = '\n' ∨ c = '\r'

/-- JavaScript `String.prototype.trim` on the draft: drop leading and
trailing whitespace. -/
def jsTrim (s : String) : String :=
  ⟨((s.toList.dropWhile isSpaceChar).reverse.dropWhile isSpaceChar).reverse⟩

/-- Session state of the chat page component. -/
structure UIState where
  draft : String
  cooldown : Int
  isTyping : Bool
  sentCount : Nat
deriving DecidableEq

/-- Initial state: `useChat` starts with an empty input,
`useState(0)` for the cooldown, `useState(false)` for the typing flag. -/
def initState : UIState :=
  ⟨"", 0, false, 0⟩

/-- The `onSubmit` handler: `if (!input.trim() || rateLimitCooldown > 0)
return`, else mark typing, hand the draft to `handleSubmit` (which issues
the request and clears the input) and start a 3-unit cooldown. -/
def submit (s : UIState) : UIState :=
  if jsTrim s.draft = "" ∨ 0 < s.cooldown then s
  else ⟨"", 3, true, s.sentCount + 1⟩

/-- One second of the cooldown timer effect: when the counter is positive
a timeout decrements it by one; otherwise no timer is armed. -/
def tick (s : UIState) : UIState :=
  if 0 < s.cooldown then { s with cooldown := s.cooldown - 1 } else s

/-- Events that touch the session state: editing the draft
(`handleInputChange`), submitting the form, and a timer second. -/
inductive UIEvent where
  | setDraft (d : String)
  | submitEv
  | tickEv

/-- One step of the chat page's state machine. -/
def step (s : UIState) : UIEvent → UIState
  | UIEvent.setDraft d => { s with draft := d }
  | UIEvent.submitEv => submit s
  | UIEvent.tickEv => tick s

/-- Run of the state machine over an event trace. -/
def run (s : UIState) (es : List UIEvent) : UIState :=
  es.foldl step s

/-!
Theorems settling the specification claims.
-/

/-- C1: the endpoint's failure classification equals the spec's ordered
reference definition — same rule order (quota/exceeded, then rate
limit/429, then authentication/401, then generic with the raw detail),
same status codes, same type tags, with exactly the first matching rule
applying. -/
theorem classifyError_eq_specClassify (e : UpstreamError) :
    (classifyError e).status = (specClassify e).1 ∧
    (classifyError e).body.etype = some (specClassify e).2.1 ∧
    (classifyError e).body.details = (specClassify e).2.2 := by
  unfold classifyError specClassify
  split_ifs <;> simp

/-- C2: an upstream error whose message contains "rate limit" or whose
status is 429 is answered with HTTP 429 and type rate_limit, provided the
quota check (message containing "quota" or "exceeded") does not fire —
the quota check takes precedence when it does. -/
theorem rate_limit_classified (e : UpstreamError)
    (h : msgIncludes e "rate limit" = true ∨ e.status = some 429)
    (hq : msgIncludes e "quota" = false)
    (hx : msgIncludes e "exceeded" = false) :
    classifyError e =
      ⟨429, ⟨"Rate limit exceeded. Please wait a moment before sending another message.",
        some "rate_limit", none⟩⟩ := by
  have hq' : (msgIncludes e "quota" || msgIncludes e "exceeded") = false := by
    simp [hq, hx]
  have hr : (msgIncludes e "rate limit" || e.status == some 429) = true := by
    rcases h with h | h
    · rw [h]; rfl
    · rw [h]; simp
  unfold classifyError
  rw [hq', hr]
  simp

/-- Witness for C2 at a concrete upstream error carrying "rate limit" in
its message. -/
theorem rate_limit_classified_witness :
    (msgIncludes ⟨some "hit the rate limit", none⟩ "rate limit" = true ∨
      (UpstreamError.mk (some "hit the rate limit") none).status = some 429) ∧
    msgIncludes ⟨some "hit the rate limit", none⟩ "quota" = false ∧
    msgIncludes ⟨some "hit the rate limit", none⟩ "exceeded" = false ∧
    classifyError ⟨some "hit the rate limit", none⟩ =
      ⟨429, ⟨"Rate limit exceeded. Please wait a moment before sending another message.",
        some "rate_limit", none⟩⟩ :=
  ⟨Or.inl (by decide), by decide, by decide,
    rate_limit_classified ⟨some "hit the rate limit", none⟩
      (Or.inl (by decide)) (by decide) (by decide)⟩

/-- C3: with no configured credential, every call returns HTTP 500 with
the descriptive configuration message and the provider is never
contacted, whatever the upstream would have done. -/
theorem missing_key_fails_fast (u : Upstream) :
    POSTroute none u =
      ⟨500, some ⟨"API key not configured. Please add your Google Gemini API key to environment variables.",
        none, none⟩, false⟩ := rfl

/-- C6 counterexample: at the concrete upstream error whose message is the
empty string (no substring matches, no status), the endpoint does return
500 with type generic_error, but its details field is the empty string —
refuting the claim that the details field is always non-empty on this
path. -/
theorem generic_details_can_be_empty :
    (classifyError ⟨some "", none⟩).status = 500 ∧
    (classifyError ⟨some "", none⟩).body.etype = some "generic_error" ∧
    (classifyError ⟨some "", none⟩).body.details = some "" := by
  decide

/-- C6 amended: every upstream failure matching none of the quota, rate
limit, and authentication checks is answered with HTTP 500, type
generic_error, and a details field equal to the upstream error's message
(hence non-empty exactly when that message is). -/
theorem generic_error_classified (e : UpstreamError)
    (h1 : (msgIncludes e "quota" || msgIncludes e "exceeded") = false)
    (h2 : (msgIncludes e "rate limit" || e.status == some 429) = false)
    (h3 : (msgIncludes e "authentication" || e.status == some 401) = false) :
    (classifyError e).status = 500 ∧
    (classifyError e).body.etype = some "generic_error" ∧
    (classifyError e).body.details = e.message := by
  unfold classifyError
  rw [h1, h2, h3]
  simp

/-- Witness for the amended C6 at a concrete unclassified upstream
error. -/
theorem generic_error_classified_witness :
    (msgIncludes ⟨some "boom", none⟩ "quota" || msgIncludes ⟨some "boom", none⟩ "exceeded") = false ∧
    (msgIncludes ⟨some "boom", none⟩ "rate limit" ||
      (UpstreamError.mk (some "boom") none).status == some 429) = false ∧
    (msgIncludes ⟨some "boom", none⟩ "authentication" ||
      (UpstreamError.mk (some "boom") none).status == some 401) = false ∧
    ((classifyError ⟨some "boom", none⟩).status = 500 ∧
      (classifyError ⟨some "boom", none⟩).body.etype = some "generic_error" ∧
      (classifyError ⟨some "boom", none⟩).body.details = some "boom") :=
  ⟨by decide, by decide, by decide,
    generic_error_classified ⟨some "boom", none⟩ (by decide) (by decide) (by decide)⟩

/-- C7 counterexample: the missing-credential failure is a failure path
(HTTP 500 with a JSON body), yet its body carries no type field at all —
refuting the claim that every failure response carries a type
classification. -/
theorem missing_key_body_untyped :
    (POSTroute none Upstream.ok).status = 500 ∧
    (POSTroute none Upstream.ok).body =
      some ⟨"API key not configured. Please add your Google Gemini API key to environment variables.",
        none, none⟩ := by
  decide

/-- C7 amended: every failure of the endpoint yields a structured JSON
error body with a non-empty error message and a status among 401, 429 and
500; every failure path except the missing-credential one additionally
carries a type classification. No call lacks a response. -/
theorem every_failure_structured (key : Option String) (u : Upstream) :
    (POSTroute key u).body = none ∨
    (((POSTroute key u).status = 401 ∨ (POSTroute key u).status = 429 ∨
        (POSTroute key u).status = 500) ∧
      ∃ b, (POSTroute key u).body = some b ∧ ¬ b.error = "" ∧
        (keyConfigured key = true → ∃ t, b.etype = some t)) := by
  by_cases hk : keyConfigured key = false
  · have hres : POSTroute key u =
        ⟨500, some ⟨"API key not configured. Please add your Google Gemini API key to environment variables.",
          none, none⟩, false⟩ := by
      unfold POSTroute
      rw [if_pos hk]
    rw [hres]
    refine Or.inr ⟨Or.inr (Or.inr rfl), _, rfl, by decide, ?_⟩
    intro hkt
    rw [hkt] at hk
    exact absurd hk (by decide)
  · cases u with
    | ok =>
      have hres : POSTroute key Upstream.ok = ⟨200, none, true⟩ := by
        unfold POSTroute
        rw [if_neg hk]
      exact Or.inl (by rw [hres])
    | err e =>
      have hres : POSTroute key (Upstream.err e) =
          ⟨(classifyError e).status, some (classifyError e).body, true⟩ := by
        unfold POSTroute
        rw [if_neg hk]
      rw [hres]
      refine Or.inr ⟨?_, (classifyError e).body, rfl, ?_, ?_⟩
      · unfold classifyError
        split_ifs <;> simp
      · unfold classifyError
        split_ifs <;> simp
      · intro _
        unfold classifyError
        split_ifs <;> exact ⟨_, rfl⟩

/-- Witness for the amended C7 at a configured key and a concrete
unclassified upstream error. -/
theorem every_failure_structured_witness :
    (POSTroute (some "k") (Upstream.err ⟨some "boom", none⟩)).body = none ∨
    (((POSTroute (some "k") (Upstream.err ⟨some "boom", none⟩)).status = 401 ∨
        (POSTroute (some "k") (Upstream.err ⟨some "boom", none⟩)).status = 429 ∨
        (POSTroute (some "k") (Upstream.err ⟨some "boom", none⟩)).status = 500) ∧
      ∃ b, (POSTroute (some "k") (Upstream.err ⟨some "boom", none⟩)).body = some b ∧
        ¬ b.error = "" ∧
        (keyConfigured (some "k") = true → ∃ t, b.etype = some t)) :=
  every_failure_structured (some "k") (Upstream.err ⟨some "boom", none⟩)

/-- C4: the calculator tool returns result 360 on "15 * 24", returns the
structured error on the malformed "1 +", and on every expression whose
evaluation fails it returns that structured error rather than throwing
past the tool boundary (the tool is a total function into result-or-error
outcomes). -/
theorem calculator_contract :
    calculator "15 * 24" = CalcOutcome.result 360 ∧
    calculator "1 +" = CalcOutcome.error "Invalid mathematical expression" ∧
    ∀ e : String, calcEval e = none →
      calculator e = CalcOutcome.error "Invalid mathematical expression" := by
  refine ⟨?_, by decide, ?_⟩
  · simp +decide [calculator, calcEval, tokenize, tokenizeF, digitsAux, fracAux,
      parseExpr, parseTerm, parseAtom, parseTermRest, parseExprRest]
    norm_num
  · intro e he
    unfold calculator
    rw [he]

/-- Witness for C4 at a concrete failing expression. -/
theorem calculator_contract_witness :
    calcEval "2 +" = none ∧
    calculator "2 +" = CalcOutcome.error "Invalid mathematical expression" :=
  ⟨by decide, calculator_contract.2.2 "2 +" (by decide)⟩

/-- C5: for every pair of values of the pseudo-random source in [0, 1),
the weather tool's temperature is an integer in [32, 90] and its
description is one of the four enumerated strings. -/
theorem weather_result_in_range (r1 r2 : ℚ) (loc : String)
    (h1a : 0 ≤ r1) (h1b : r1 < 1) (h2a : 0 ≤ r2) (h2b : r2 < 1) :
    32 ≤ (weather r1 r2 loc).temperature ∧
    (weather r1 r2 loc).temperature ≤ 90 ∧
    ∃ d, (weather r1 r2 loc).description = some d ∧ d ∈ weatherDescs := by
  have hlo : 32 ≤ weatherTemp r1 := by
    rw [weatherTemp, jsRound, Int.le_floor]
    push_cast
    nlinarith
  have hhi : weatherTemp r1 ≤ 90 := by
    have h91 : weatherTemp r1 < 91 := by
      rw [weatherTemp, jsRound]
      apply Int.floor_lt.mpr
      push_cast
      nlinarith
    omega
  have hi0 : 0 ≤ weatherDescIdx r2 := by
    rw [weatherDescIdx]
    apply Int.le_floor.mpr
    push_cast
    nlinarith
  have hi4 : weatherDescIdx r2 < 4 := by
    rw [weatherDescIdx]
    apply Int.floor_lt.mpr
    push_cast
    nlinarith
  refine ⟨hlo, hhi, ?_⟩
  show ∃ d, (if weatherDescIdx r2 < 0 then none
      else weatherDescs.get? (weatherDescIdx r2).toNat) = some d ∧ d ∈ weatherDescs
  rw [if_neg (not_lt.mpr hi0)]
  have hcases : weatherDescIdx r2 = 0 ∨ weatherDescIdx r2 = 1 ∨
      weatherDescIdx r2 = 2 ∨ weatherDescIdx r2 = 3 := by omega
  rcases hcases with h | h | h | h <;> rw [h]
  · exact ⟨"sunny", by decide, by decide⟩
  · exact ⟨"cloudy", by decide, by decide⟩
  · exact ⟨"rainy", by decide, by decide⟩
  · exact ⟨"snowy", by decide, by decide⟩

/-- Witness for C5 at the concrete random draws 1/2 and 1/2. -/
theorem weather_result_in_range_witness :
    (0 ≤ (1 / 2 : ℚ)) ∧ ((1 / 2 : ℚ) < 1) ∧
    (32 ≤ (weather (1 / 2) (1 / 2) "Tokyo").temperature ∧
      (weather (1 / 2) (1 / 2) "Tokyo").temperature ≤ 90 ∧
      ∃ d, (weather (1 / 2) (1 / 2) "Tokyo").description = some d ∧
        d ∈ weatherDescs) :=
  ⟨by norm_num, by norm_num,
    weather_result_in_range (1 / 2) (1 / 2) "Tokyo"
      (by norm_num) (by norm_num) (by norm_num) (by norm_num)⟩

/-- Helper: while enough cooldown remains, `n` timer seconds subtract `n`
from the counter and touch nothing else. -/
theorem tick_iterate (n : Nat) :
    ∀ x : UIState, (n : Int) ≤ x.cooldown →
      tick^[n] x = ⟨x.draft, x.cooldown - n, x.isTyping, x.sentCount⟩ := by
  induction n with
  | zero =>
    intro x h
    obtain ⟨d, c, b, k⟩ := x
    simp
  | succ n ih =>
    intro x h
    rw [Function.iterate_succ_apply]
    have hpos : 0 < x.cooldown := by
      push_cast at h
      omega
    have ht : tick x = ⟨x.draft, x.cooldown - 1, x.isTyping, x.sentCount⟩ := by
      unfold tick
      rw [if_pos hpos]
    rw [ht, ih]
    · simp
      ring
    · simp
      push_cast at h ⊢
      omega

/-- C8: whenever the draft trims to the empty string or the cooldown is
positive, submitting is a no-op — the state, draft included, is unchanged
and the request counter does not move. -/
theorem submit_guard_noop (s : UIState)
    (h : jsTrim s.draft = "" ∨ 0 < s.cooldown) :
    submit s = s := by
  unfold submit
  exact if_pos h

/-- Witness for C8 at a concrete state with a pending cooldown. -/
theorem submit_guard_noop_witness :
    (jsTrim (UIState.mk "hello" 2 false 0).draft = "" ∨
      0 < (UIState.mk "hello" 2 false 0).cooldown) ∧
    submit ⟨"hello", 2, false, 0⟩ = ⟨"hello", 2, false, 0⟩ :=
  ⟨Or.inr (by decide), submit_guard_noop ⟨"hello", 2, false, 0⟩ (Or.inr (by decide))⟩

/-- C9: a successful submission sets the cooldown to 3; each timer second
decrements it by exactly one, so it reads 3 - n after n seconds and 0
after 3; while it is positive any submit is a no-op (in any state), and
once it reaches 0 a submit of a fresh non-blank draft goes through
again. -/
theorem cooldown_countdown (s : UIState)
    (hd : ¬ jsTrim s.draft = "") (hc : s.cooldown ≤ 0) :
    (submit s).cooldown = 3 ∧
    (∀ n : Nat, n ≤ 3 → (tick^[n] (submit s)).cooldown = 3 - (n : Int)) ∧
    (∀ n : Nat, n < 3 → 0 < (tick^[n] (submit s)).cooldown) ∧
    (∀ t : UIState, 0 < t.cooldown → submit t = t) ∧
    (tick^[3] (submit s)).cooldown = 0 ∧
    (∀ d : String, ¬ jsTrim d = "" →
      submit { tick^[3] (submit s) with draft := d } =
        ⟨"", 3, true, s.sentCount + 2⟩) := by
  have hs : submit s = ⟨"", 3, true, s.sentCount + 1⟩ := by
    unfold submit
    rw [if_neg]
    push_neg
    exact ⟨hd, hc⟩
  have hiter : ∀ n : Nat, n ≤ 3 →
      tick^[n] (submit s) = ⟨"", 3 - (n : Int), true, s.sentCount + 1⟩ := by
    intro n hn
    have hle : (n : Int) ≤ (UIState.mk "" 3 true (s.sentCount + 1)).cooldown := by
      show (n : Int) ≤ 3
      exact_mod_cast hn
    rw [hs]
    exact tick_iterate n ⟨"", 3, true, s.sentCount + 1⟩ hle
  have hiter3 : tick^[3] (submit s) = ⟨"", 0, true, s.sentCount + 1⟩ := by
    rw [hiter 3 le_rfl]
    norm_num
  refine ⟨by rw [hs], ?_, ?_, ?_, ?_, ?_⟩
  · intro n hn
    rw [hiter n hn]
  · intro n hn
    rw [hiter n (le_of_lt hn)]
    show 0 < 3 - (n : Int)
    omega
  · intro t ht
    unfold submit
    rw [if_pos (Or.inr ht)]
  · rw [hiter3]
  · intro d hd2
    rw [hiter3]
    show submit ⟨d, 0, true, s.sentCount + 1⟩ = ⟨"", 3, true, s.sentCount + 2⟩
    unfold submit
    rw [if_neg]
    push_neg
    exact ⟨hd2, by norm_num⟩

/-- Witness for C9 at a concrete idle state holding a non-blank draft. -/
theorem cooldown_countdown_witness :
    (¬ jsTrim (UIState.mk "hello" 0 false 0).draft = "") ∧
    ((UIState.mk "hello" 0 false 0).cooldown ≤ 0) ∧
    (submit ⟨"hello", 0, false, 0⟩).cooldown = 3 ∧
    (tick^[3] (submit ⟨"hello", 0, false, 0⟩)).cooldown = 0 :=
  ⟨by decide, by decide,
    (cooldown_countdown ⟨"hello", 0, false, 0⟩ (by decide) (by decide)).1,
    (cooldown_countdown ⟨"hello", 0, false, 0⟩ (by decide) (by decide)).2.2.2.2.1⟩

/-- Helper: one step of the UI state machine never makes the cooldown
negative, hence neither does any run. -/
theorem run_cooldown_nonneg (es : List UIEvent) :
    ∀ s : UIState, 0 ≤ s.cooldown → 0 ≤ (run s es).cooldown := by
  induction es with
  | nil =>
    intro s h
    exact h
  | cons e es ih =>
    intro s h
    have hstep : 0 ≤ (step s e).cooldown := by
      cases e with
      | setDraft d => exact h
      | submitEv =>
        unfold step submit
        split_ifs
        · exact h
        · show (0 : Int) ≤ 3
          norm_num
      | tickEv =>
        unfold step tick
        split_ifs with hc
        · show (0 : Int) ≤ s.cooldown - 1
          omega
        · exact h
    exact ih (step s e) hstep

/-- C10: the cooldown is non-negative in every reachable state: it starts
at 0, a submission either leaves the state alone or sets it to 3, the
timer decrements only a positive counter, and consequently every event
trace from the initial state keeps it at or above 0. -/
theorem cooldown_invariant :
    initState.cooldown = 0 ∧
    (∀ s : UIState, submit s = s ∨ (submit s).cooldown = 3) ∧
    (∀ s : UIState, s.cooldown ≤ 0 → tick s = s) ∧
    (∀ es : List UIEvent, 0 ≤ (run initState es).cooldown) := by
  refine ⟨rfl, ?_, ?_, ?_⟩
  · intro s
    unfold submit
    split_ifs
    · exact Or.inl rfl
    · exact Or.inr rfl
  · intro s h
    unfold tick
    rw [if_neg (not_lt.mpr h)]
  · intro es
    exact run_cooldown_nonneg es initState (by decide)

/-- Witness for C10: the timer leaves a zero counter alone, and a concrete
trace with more ticks than cooldown still ends non-negative. -/
theorem cooldown_invariant_witness :
    ((UIState.mk "x" 0 false 0).cooldown ≤ 0) ∧
    tick ⟨"x", 0, false, 0⟩ = ⟨"x", 0, false, 0⟩ ∧
    0 ≤ (run initState
      [UIEvent.setDraft "hi", UIEvent.submitEv, UIEvent.tickEv, UIEvent.tickEv,
        UIEvent.tickEv, UIEvent.tickEv, UIEvent.tickEv]).cooldown :=
  ⟨by decide, cooldown_invariant.2.2.1 ⟨"x", 0, false, 0⟩ (by decide),
    cooldown_invariant.2.2.2 _⟩

end ChatApp
